import Mathlib

/-!
Verification of the query-construction core of the jobly backend:
the generic partial-update clause builder (`helpers/sql.js`), the
per-entity filter builders (`models/company.js`, `models/job.js`),
and the immutable-field guard of `Job.update` (`models/job.js`).

JavaScript objects supplied by callers are modelled as association
lists `List (String × JSVal)` (key insertion order is significant) or,
for the filter criteria whose recognized keys are fixed, as structures
with `Option`-typed fields (`none` = key absent).  JavaScript
truthiness is modelled per value: numbers are truthy iff nonzero,
strings iff nonempty, booleans iff `true`, and an absent value is
falsy.  Fallible operations return `Except String`, the error carrying
the message of the thrown `BadRequestError`.
-/

/-- A JavaScript value as it appears in caller-supplied maps:
a number (modelled as an integer), a string, or a boolean. -/
inductive JSVal where
  | vNum (n : Int)
  | vStr (s : String)
  | vBool (b : Bool)
deriving DecidableEq, Repr

/-- JavaScript truthiness of a value: `0`, `""` and `false` are falsy. -/
def JSVal.truthy : JSVal → Bool
  | .vNum n => n != 0
  | .vStr s => s != ""
  | .vBool b => b

/-- Truthiness of an optional value; an absent value (`undefined`) is falsy. -/
def truthyOpt : Option JSVal → Bool
  | some v => v.truthy
  | none => false

/-- Property access `data[k]` on an object modelled as an association list. -/
def lookupJS (k : String) (data : List (String × JSVal)) : Option JSVal :=
  data.lookup k

/-- Column-name resolution `jsToSql[colName] || colName` from
`sqlForPartialUpdate` (src/helpers/sql.js): the mapped name when the
mapping has a truthy (nonempty) entry for the key, the key itself
otherwise. -/
def resolveCol (jsToSql : List (String × String)) (colName : String) : String :=
  match jsToSql.lookup colName with
  | some v => if v = "" then colName else v
  | none => colName

/-- The per-key body of
`keys.map((colName, idx) => "<mapped>"=$<idx+1>)` in
`sqlForPartialUpdate`, carrying the running zero-based index `idx`. -/
def updateColsAux (jsToSql : List (String × String)) (idx : Nat) :
    List String → List String
  | [] => []
  | colName :: keys =>
      ("\"" ++ resolveCol jsToSql colName ++ "\"=$" ++ toString (idx + 1))
        :: updateColsAux jsToSql (idx + 1) keys

/-- The `cols` array of `sqlForPartialUpdate`: one assignment fragment
per key of the update map, in insertion order, numbered from `$1`. -/
def updateCols (jsToSql : List (String × String)) (keys : List String) :
    List String :=
  updateColsAux jsToSql 0 keys

/-- Result record of `sqlForPartialUpdate`: the joined `SET` clause text
and the ordered list of bound values. -/
structure SqlUpdate where
  setCols : String
  values : List JSVal
deriving DecidableEq, Repr

/-- Embedding of `sqlForPartialUpdate(dataToUpdate, jsToSql)`
(src/helpers/sql.js lines 34-49): throws `BadRequestError("No data")`
when the map has no keys, otherwise joins the assignment fragments with
`", "` and returns the map's values in insertion order. -/
def sqlForPartialUpdate (dataToUpdate : List (String × JSVal))
    (jsToSql : List (String × String)) : Except String SqlUpdate :=
  let keys := dataToUpdate.map Prod.fst
  if keys.length = 0 then
    .error "No data"
  else
    .ok { setCols := String.intercalate ", " (updateCols jsToSql keys),
          values := dataToUpdate.map Prod.snd }

/-- Truthiness of an optional string field (`undefined` and `""` are falsy). -/
def truthyStr : Option String → Bool
  | some s => s != ""
  | none => false

/-- Truthiness of an optional numeric field (`undefined` and `0` are falsy). -/
def truthyNum : Option Int → Bool
  | some n => n != 0
  | none => false

/-- Truthiness of an optional boolean field (`undefined` and `false` are falsy). -/
def truthyBool : Option Bool → Bool
  | some b => b
  | none => false

/-- Wildcard wrapping applied by the filters before binding:
`query.x` becomes `%x%`. -/
def wrapWild (s : String) : String := "%" ++ s ++ "%"

/-- The per-entry body of the filters' `queryKeys.forEach` loop: each
recognized, truthy entry contributes the condition
`<fragment> $<position>`, where the position is the length of `params`
after the entry's value is pushed (so the `i`-th included entry, zero
based, gets position `i + 1`).  The argument is the list of SQL
fragments of the included entries, in iteration order. -/
def condsAux (idx : Nat) : List String → List String
  | [] => []
  | f :: fs => (f ++ " $" ++ toString (idx + 1)) :: condsAux (idx + 1) fs

/-- Search criteria for `Company.filter` (src/models/company.js): the
three recognized keys, each `none` when absent from the query object.
Unrecognized keys never contribute a condition (the loop requires
`sqlMap[key]`), so they are not modelled. -/
structure CompanyQuery where
  nameLike : Option String
  minEmployees : Option Int
  maxEmployees : Option Int
deriving DecidableEq, Repr

/-- Result of a filter's statement-construction step: the `WHERE`
clause text (interpolated into the fixed `SELECT ... ORDER BY`
template) and the ordered bound parameters. -/
structure FilterResult where
  whereClause : String
  params : List JSVal
deriving DecidableEq, Repr

/-- The recognized, truthy entries of `Company.filter`'s loop, in the
`sqlMap` key order `nameLike`, `minEmployees`, `maxEmployees`, each
paired with the value that is pushed onto `params`.  This is computed
from the query object as it stands after the wildcard-wrapping
mutation. -/
def companyEntries (q : CompanyQuery) : List (String × JSVal) :=
  (match q.nameLike with
   | some s => if s = "" then [] else [("name ILIKE", JSVal.vStr s)]
   | none => []) ++
  (match q.minEmployees with
   | some n => if n = 0 then [] else [("num_employees >=", JSVal.vNum n)]
   | none => []) ++
  (match q.maxEmployees with
   | some n => if n = 0 then [] else [("num_employees <=", JSVal.vNum n)]
   | none => [])

/-- Embedding of `Company.filter(query)` (src/models/company.js lines
177-224), up to the point where the statement and parameters are handed
to the database.  The second component of the result is the state of
the caller's `query` object after the call: the function mutates it in
place (`query.nameLike = ...`) when the wildcard-wrapping line is
reached with a truthy `nameLike`.  Steps, in source order: throw
`BadRequestError` when no recognized key is truthy; throw when
`minEmployees` and `maxEmployees` are both truthy and `+min > +max`;
wrap a truthy `nameLike` in `%`; build one condition per recognized
truthy entry and join with `" AND "`. -/
def companyFilter (query : CompanyQuery) :
    Except String FilterResult × CompanyQuery :=
  if !truthyStr query.nameLike && !truthyNum query.minEmployees
      && !truthyNum query.maxEmployees then
    (.error "Invalid search criteria", query)
  else if truthyNum query.minEmployees && truthyNum query.maxEmployees
      && query.minEmployees.getD 0 > query.maxEmployees.getD 0 then
    (.error "Invalid request, minEmployees can not exceed maxEmployees", query)
  else
    let q2 := if truthyStr query.nameLike
      then { query with nameLike := query.nameLike.map wrapWild }
      else query
    let entries := companyEntries q2
    (.ok { whereClause :=
             String.intercalate " AND " (condsAux 0 (entries.map Prod.fst)),
           params := entries.map Prod.snd },
     q2)

/-- Search criteria for `Job.filter` (src/models/job.js): the three
recognized keys, each `none` when absent from the query object. -/
structure JobQuery where
  title : Option String
  minSalary : Option Int
  hasEquity : Option Bool
deriving DecidableEq, Repr

/-- The `hasEquity` fragment of `Job.filter`'s `sqlMap`: the source
text is a template whose hole is the ternary with the constant truthy
string literal as its condition, so the hole always evaluates to the
negated flag and the fragment stringifies it, never taking the other
branch. -/
def jobHasEquityFrag (q : JobQuery) : String :=
  "equity " ++ (if truthyBool q.hasEquity then "false" else "true")

/-- The recognized, truthy entries of `Job.filter`'s loop, in the
`sqlMap` key order `title`, `minSalary`, `hasEquity`, computed from the
query object after the wildcard-wrapping mutation. -/
def jobEntries (q : JobQuery) : List (String × JSVal) :=
  (match q.title with
   | some s => if s = "" then [] else [("title ILIKE", JSVal.vStr s)]
   | none => []) ++
  (match q.minSalary with
   | some n => if n = 0 then [] else [("salary >=", JSVal.vNum n)]
   | none => []) ++
  (match q.hasEquity with
   | some b => if b then [(jobHasEquityFrag q, JSVal.vBool b)] else []
   | none => [])

/-- Embedding of `Job.filter(query)` (src/models/job.js lines 180-224),
up to the point where the statement and parameters are handed to the
database.  The second component is the state of the caller's `query`
object after the call (the function mutates `query.title` in place when
the wrapping line is reached with a truthy `title`).  Steps, in source
order: throw `BadRequestError` when no recognized key is truthy; wrap a
truthy `title` in `%`; build one condition per recognized truthy entry
and join with `" AND "`. -/
def jobFilter (query : JobQuery) : Except String FilterResult × JobQuery :=
  if !truthyStr query.title && !truthyNum query.minSalary
      && !truthyBool query.hasEquity then
    (.error "Invalid search criteria", query)
  else
    let q2 := if truthyStr query.title
      then { query with title := query.title.map wrapWild }
      else query
    let entries := jobEntries q2
    (.ok { whereClause :=
             String.intercalate " AND " (condsAux 0 (entries.map Prod.fst)),
           params := entries.map Prod.snd },
     q2)

/-- Mapping passed by `Job.update` to `sqlForPartialUpdate`. -/
def jobJsToSql : List (String × String) := [("companyHandle", "company_handle")]

/-- Embedding of the statement-construction part of `Job.update(id, data)`
(src/models/job.js lines 130-139): the immutable-field guard
`if (data.id || data.companyHandle) throw BadRequestError`, which tests
the truthiness of the two values rather than the presence of the keys,
followed by the call to `sqlForPartialUpdate`. -/
def jobUpdateSet (data : List (String × JSVal)) : Except String SqlUpdate :=
  if truthyOpt (lookupJS "id" data) || truthyOpt (lookupJS "companyHandle" data) then
    .error "Job id and companyHandle can not be changed"
  else
    sqlForPartialUpdate data jobJsToSql

/-- The condition fragments of `Company.filter` as a function of the
truthiness of the three recognized criteria alone: the clause text
depends only on which criteria are truthy, never on their contents. -/
def companyFragShape (hasName bmin bmax : Bool) : List String :=
  (if hasName then ["name ILIKE"] else [])
    ++ (if bmin then ["num_employees >="] else [])
    ++ (if bmax then ["num_employees <="] else [])

/-- The concrete filter result used to witness the amended C8. -/
def techFilterResult : FilterResult :=
  { whereClause := "name ILIKE $1", params := [JSVal.vStr "%tech%"] }

theorem updateColsAux_length (m : List (String × String)) (idx : Nat)
    (keys : List String) : (updateColsAux m idx keys).length = keys.length := by
  induction keys generalizing idx with
  | nil => rfl
  | cons k ks ih => simp [updateColsAux, ih]

theorem updateColsAux_getD (m : List (String × String)) (idx i : Nat)
    (keys : List String) (h : i < keys.length) :
    (updateColsAux m idx keys).getD i ""
      = "\"" ++ resolveCol m (keys.getD i "") ++ "\"=$" ++ toString (idx + i + 1) := by
  induction keys generalizing idx i with
  | nil => simp at h
  | cons k ks ih =>
      cases i with
      | zero => simp [updateColsAux]
      | succ j =>
          have hj : j < ks.length := by simpa using h
          have := ih (idx + 1) j hj
          simpa [updateColsAux, Nat.add_assoc, Nat.add_comm, Nat.add_left_comm] using this

theorem updateCols_length (m : List (String × String)) (keys : List String) :
    (updateCols m keys).length = keys.length :=
  updateColsAux_length m 0 keys

theorem updateCols_getD (m : List (String × String)) (i : Nat)
    (keys : List String) (h : i < keys.length) :
    (updateCols m keys).getD i ""
      = "\"" ++ resolveCol m (keys.getD i "") ++ "\"=$" ++ toString (i + 1) := by
  simpa [updateCols] using updateColsAux_getD m 0 i keys h

theorem map_snd_getD (d : List (String × JSVal)) (i : Nat) (h : i < d.length) :
    (d.map Prod.snd).getD i (JSVal.vStr "") = (d.getD i ("", JSVal.vStr "")).2 := by
  induction d generalizing i with
  | nil => simp at h
  | cons p ps ih =>
      cases i with
      | zero => rfl
      | succ j => exact ih j (by simpa using h)

theorem map_fst_getD (d : List (String × JSVal)) (i : Nat) (h : i < d.length) :
    (d.map Prod.fst).getD i "" = (d.getD i ("", JSVal.vStr "")).1 := by
  induction d generalizing i with
  | nil => simp at h
  | cons p ps ih =>
      cases i with
      | zero => rfl
      | succ j => exact ih j (by simpa using h)

/-- C1: the `SET` clause text produced by `sqlForPartialUpdate` is a
function of the key list (resolved through the mapping) and fixed
syntax alone — two update maps with the same keys in the same order
yield identical `setCols` whatever their values are — and the values
surface only in the returned `values` list, in insertion order, never
in the clause text. -/
theorem sqlForPartialUpdate_injection_safe
    (d1 d2 : List (String × JSVal)) (m : List (String × String))
    (hkeys : d1.map Prod.fst = d2.map Prod.fst) :
    Except.map SqlUpdate.setCols (sqlForPartialUpdate d1 m)
      = Except.map SqlUpdate.setCols (sqlForPartialUpdate d2 m)
    ∧ Except.map SqlUpdate.values (sqlForPartialUpdate d1 m)
      = Except.map (fun _ => d1.map Prod.snd) (sqlForPartialUpdate d1 m) := by
  constructor
  · by_cases h0 : d2 = [] <;>
      simp [sqlForPartialUpdate, hkeys, h0, Except.map]
  · by_cases h0 : d1 = [] <;>
      simp [sqlForPartialUpdate, h0, Except.map]

/-- Witness for C1 at two concrete one-key maps sharing the key `a`
but holding values of different types. -/
theorem sqlForPartialUpdate_injection_safe_witness :
    Except.map SqlUpdate.setCols (sqlForPartialUpdate [("a", JSVal.vNum 1)] [])
      = Except.map SqlUpdate.setCols (sqlForPartialUpdate [("a", JSVal.vStr "zzz")] [])
    ∧ sqlForPartialUpdate [("a", JSVal.vNum 1)] []
      = Except.ok { setCols := "\"a\"=$1", values := [JSVal.vNum 1] } := by
  have h := sqlForPartialUpdate_injection_safe
    [("a", JSVal.vNum 1)] [("a", JSVal.vStr "zzz")] [] rfl
  exact ⟨h.1, rfl⟩

/-- C3: on a non-empty update map of size `N`, `sqlForPartialUpdate`
succeeds with exactly `N` assignment fragments and `N` bound values;
the `i`-th fragment (zero-based `i`) quotes the resolved `i`-th key and
references parameter position `$(i+1)`, and the `i`-th value is the
value of the `i`-th key in insertion order. -/
theorem sqlForPartialUpdate_shape (d : List (String × JSVal))
    (m : List (String × String)) (hne : d ≠ []) :
    sqlForPartialUpdate d m = Except.ok
      { setCols := String.intercalate ", " (updateCols m (d.map Prod.fst)),
        values := d.map Prod.snd }
    ∧ (updateCols m (d.map Prod.fst)).length = d.length
    ∧ (d.map Prod.snd).length = d.length
    ∧ ∀ i, i < d.length →
        (updateCols m (d.map Prod.fst)).getD i ""
          = "\"" ++ resolveCol m ((d.getD i ("", JSVal.vStr "")).1) ++ "\"=$"
              ++ toString (i + 1)
        ∧ (d.map Prod.snd).getD i (JSVal.vStr "")
          = (d.getD i ("", JSVal.vStr "")).2 := by
  have h0 : ¬ (d.map Prod.fst).length = 0 := by
    simpa [List.length_eq_zero] using hne
  refine ⟨?_, ?_, by simp, ?_⟩
  · simp [sqlForPartialUpdate, hne]
  · rw [updateCols_length]; simp
  · intro i hi
    refine ⟨?_, map_snd_getD d i hi⟩
    rw [← map_fst_getD d i hi]
    exact updateCols_getD m i (d.map Prod.fst) (by simpa using hi)

/-- Witness for C3 at a concrete two-key map with no column mapping. -/
theorem sqlForPartialUpdate_shape_witness :
    sqlForPartialUpdate [("a", JSVal.vNum 1), ("b", JSVal.vStr "x")] []
      = Except.ok { setCols := "\"a\"=$1, \"b\"=$2",
                    values := [JSVal.vNum 1, JSVal.vStr "x"] }
    ∧ ("\"a\"=$1" : String) = "\"" ++ resolveCol [] "a" ++ "\"=$" ++ toString (0 + 1) := by
  have h := sqlForPartialUpdate_shape
    [("a", JSVal.vNum 1), ("b", JSVal.vStr "x")] [] (by simp)
  exact ⟨h.1.trans rfl, ((h.2.2.2 0 (by simp)).1.symm.trans rfl).symm⟩

/-- C4: an update map with no keys makes `sqlForPartialUpdate` fail
with the `BadRequestError` (the spec's `ValidationError`) carrying
"No data"; no `SET` clause is produced (the error is the entire
result). -/
theorem sqlForPartialUpdate_empty (d : List (String × JSVal))
    (m : List (String × String)) (h : (d.map Prod.fst).length = 0) :
    sqlForPartialUpdate d m = Except.error "No data" := by
  simp [sqlForPartialUpdate, h]

/-- Witness for C4 at the empty map. -/
theorem sqlForPartialUpdate_empty_witness :
    sqlForPartialUpdate [] [] = Except.error "No data" :=
  sqlForPartialUpdate_empty [] [] rfl

/-- C5: with the company mapping and the input
`{numEmployees: 5, name: "Acme"}`, the output is exactly the fragments
`"num_employees"=$1` and `"name"=$2` (joined with `", "`) and the
values `[5, "Acme"]`: the unmapped key `name` resolves to itself and
insertion order is preserved. -/
theorem sqlForPartialUpdate_company_example :
    sqlForPartialUpdate
        [("numEmployees", JSVal.vNum 5), ("name", JSVal.vStr "Acme")]
        [("numEmployees", "num_employees"), ("logoUrl", "logo_url")]
      = Except.ok { setCols := "\"num_employees\"=$1, \"name\"=$2",
                    values := [JSVal.vNum 5, JSVal.vStr "Acme"] } := rfl

/-- C6: a criteria map with none of the entity's recognized filter keys
(in particular the empty map) makes both `Company.filter` and
`Job.filter` fail with the `BadRequestError` (the spec's
`ValidationError`) "Invalid search criteria": with every recognized key
absent, all three truthiness tests in the opening guard are false. -/
theorem filter_no_recognized_key (cq : CompanyQuery) (jq : JobQuery)
    (hc1 : cq.nameLike = none) (hc2 : cq.minEmployees = none)
    (hc3 : cq.maxEmployees = none) (hj1 : jq.title = none)
    (hj2 : jq.minSalary = none) (hj3 : jq.hasEquity = none) :
    companyFilter cq = (Except.error "Invalid search criteria", cq)
    ∧ jobFilter jq = (Except.error "Invalid search criteria", jq) := by
  constructor
  · simp [companyFilter, truthyStr, truthyNum, hc1, hc2, hc3]
  · simp [jobFilter, truthyStr, truthyNum, truthyBool, hj1, hj2, hj3]

/-- Witness for C6 at the empty criteria maps of both entities. -/
theorem filter_no_recognized_key_witness :
    companyFilter ⟨none, none, none⟩
      = (Except.error "Invalid search criteria", ⟨none, none, none⟩)
    ∧ jobFilter ⟨none, none, none⟩
      = (Except.error "Invalid search criteria", ⟨none, none, none⟩) :=
  filter_no_recognized_key ⟨none, none, none⟩ ⟨none, none, none⟩
    rfl rfl rfl rfl rfl rfl

/-- C2 (code bug): evaluating `Job.filter` at `{hasEquity: true}` shows
the built predicate is the malformed fragment `equity false $1` with
the boolean `true` bound as the parameter — not `equity > 0` as the
spec states; the ternary in the source's `sqlMap` has the constant
truthy string literal as its condition, so its `> 0` branch is
unreachable.  The other half of the claim holds: with `hasEquity` false
(next to another recognized key) or absent, no equity condition is
emitted. -/
theorem jobFilter_hasEquity_eval :
    jobFilter ⟨none, none, some true⟩
      = (Except.ok { whereClause := "equity false $1",
                     params := [JSVal.vBool true] },
         ⟨none, none, some true⟩)
    ∧ jobFilter ⟨some "eng", none, some false⟩
      = (Except.ok { whereClause := "title ILIKE $1",
                     params := [JSVal.vStr "%eng%"] },
         ⟨some "%eng%", none, some false⟩)
    ∧ jobFilter ⟨some "eng", none, none⟩
      = (Except.ok { whereClause := "title ILIKE $1",
                     params := [JSVal.vStr "%eng%"] },
         ⟨some "%eng%", none, none⟩) :=
  ⟨rfl, rfl, rfl⟩

theorem companyFilter_minmax_error (q : CompanyQuery)
    (hmin : truthyNum q.minEmployees = true)
    (hmax : truthyNum q.maxEmployees = true)
    (hgt : q.minEmployees.getD 0 > q.maxEmployees.getD 0) :
    companyFilter q
      = (Except.error "Invalid request, minEmployees can not exceed maxEmployees",
         q) := by
  simp [companyFilter, hmin, hmax, hgt]

/-- C7 counterexample: with criteria `{minEmployees: 5, maxEmployees: 0}`
both bounds are present and the minimum exceeds the maximum, yet
`Company.filter` does not fail: the guard tests truthiness, the value
`0` is falsy, so the range check is skipped and a predicate is built
(the falsy `maxEmployees` is also dropped from it). -/
theorem companyFilter_minmax_counterexample :
    (5 : Int) > 0
    ∧ companyFilter ⟨none, some 5, some 0⟩
        = (Except.ok { whereClause := "num_employees >= $1",
                       params := [JSVal.vNum 5] },
           ⟨none, some 5, some 0⟩) :=
  ⟨by decide, rfl⟩

/-- C7 amended: when `minEmployees` and `maxEmployees` are both present
with truthy (nonzero) values and the minimum exceeds the maximum,
`Company.filter` fails with the `BadRequestError` (the spec's
`ValidationError`) before any predicate is built — the error is the
entire result and the criteria map is still untouched. -/
theorem companyFilter_minmax_amended (q : CompanyQuery) (mn mx : Int)
    (hmn : q.minEmployees = some mn) (hmx : q.maxEmployees = some mx)
    (hmn0 : mn ≠ 0) (hmx0 : mx ≠ 0) (hgt : mn > mx) :
    companyFilter q
      = (Except.error "Invalid request, minEmployees can not exceed maxEmployees",
         q) :=
  companyFilter_minmax_error q (by simp [truthyNum, hmn, hmn0])
    (by simp [truthyNum, hmx, hmx0]) (by simp [hmn, hmx, hgt])

/-- Witness for the amended C7 at the spec's own example
`{minEmployees: 10, maxEmployees: 5}`. -/
theorem companyFilter_minmax_amended_witness :
    companyFilter ⟨none, some 10, some 5⟩
      = (Except.error "Invalid request, minEmployees can not exceed maxEmployees",
         ⟨none, some 10, some 5⟩) :=
  companyFilter_minmax_amended ⟨none, some 10, some 5⟩ 10 5 rfl rfl
    (by decide) (by decide) (by decide)

/-- C9 counterexample: the statement-construction step is not free of
side effects on its arguments — both filters overwrite the caller's
criteria map in place.  At `{nameLike: "tech"}` the map's `nameLike`
value is `"%tech%"` after the call, and at
`{title: "eng", minSalary: 100}` the map's `title` value is `"%eng%"`. -/
theorem filter_mutates_criteria_counterexample :
    (companyFilter ⟨some "tech", none, none⟩).2 ≠ ⟨some "tech", none, none⟩
    ∧ (jobFilter ⟨some "eng", some 100, none⟩).2 ≠ ⟨some "eng", some 100, none⟩ :=
  ⟨by decide, by decide⟩

/-- C9 amended: `sqlForPartialUpdate` is pure (it only reads its
arguments and returns a fresh result), but `Company.filter` and
`Job.filter` mutate the caller's criteria map in exactly one way: when
the wrapping line is reached with a truthy `nameLike` (resp. `title`),
that one entry is replaced by its wildcard-wrapped form; every other
entry of the map is left unchanged, and on an early validation error
the map is left fully unchanged. -/
theorem filter_mutation_frame (cq : CompanyQuery) (jq : JobQuery) :
    ((companyFilter cq).2 = cq
      ∨ (companyFilter cq).2 = { cq with nameLike := cq.nameLike.map wrapWild })
    ∧ (companyFilter cq).2.minEmployees = cq.minEmployees
    ∧ (companyFilter cq).2.maxEmployees = cq.maxEmployees
    ∧ ((jobFilter jq).2 = jq
      ∨ (jobFilter jq).2 = { jq with title := jq.title.map wrapWild })
    ∧ (jobFilter jq).2.minSalary = jq.minSalary
    ∧ (jobFilter jq).2.hasEquity = jq.hasEquity := by
  have hc : (companyFilter cq).2 = cq
      ∨ (companyFilter cq).2 = { cq with nameLike := cq.nameLike.map wrapWild } := by
    unfold companyFilter
    split
    · exact Or.inl rfl
    · split
      · exact Or.inl rfl
      · dsimp only
        split
        · exact Or.inr rfl
        · exact Or.inl rfl
  have hj : (jobFilter jq).2 = jq
      ∨ (jobFilter jq).2 = { jq with title := jq.title.map wrapWild } := by
    unfold jobFilter
    split
    · exact Or.inl rfl
    · dsimp only
      split
      · exact Or.inr rfl
      · exact Or.inl rfl
  refine ⟨hc, ?_, ?_, hj, ?_, ?_⟩
  · rcases hc with h | h <;> simp [h]
  · rcases hc with h | h <;> simp [h]
  · rcases hj with h | h <;> simp [h]
  · rcases hj with h | h <;> simp [h]

theorem wrapWild_length (s : String) : (wrapWild s).length = s.length + 2 := by
  have h1 : ("%" : String).length = 1 := rfl
  rw [wrapWild, String.length_append, String.length_append, h1]
  omega

theorem wrapWild_ne_empty (s : String) : wrapWild s ≠ "" := by
  intro h
  have h2 := congrArg String.length h
  rw [wrapWild_length] at h2
  have h0 : ("" : String).length = 0 := rfl
  omega

theorem wrapWild_ne_self (s : String) : wrapWild s ≠ s := by
  intro h
  have h2 := congrArg String.length h
  rw [wrapWild_length] at h2
  omega

theorem companyFilter_nameLike_ok (s : String) (hs : s ≠ "") (mn mx : Option Int)
    (hguard : ¬(truthyNum mn = true ∧ truthyNum mx = true ∧ mn.getD 0 > mx.getD 0)) :
    companyFilter ⟨some s, mn, mx⟩
      = (Except.ok
          { whereClause := String.intercalate " AND "
              (condsAux 0 (companyFragShape true (truthyNum mn) (truthyNum mx))),
            params := JSVal.vStr (wrapWild s)
              :: ((if truthyNum mn then [JSVal.vNum (mn.getD 0)] else [])
                  ++ (if truthyNum mx then [JSVal.vNum (mx.getD 0)] else [])) },
         ⟨some (wrapWild s), mn, mx⟩) := by
  rcases mn with _ | n <;> rcases mx with _ | m
  · simp [companyFilter, companyEntries, truthyStr, truthyNum, hs,
      wrapWild_ne_empty s, companyFragShape, condsAux]
  · by_cases hm : m = 0 <;>
      simp [companyFilter, companyEntries, truthyStr, truthyNum, hs, hm,
        wrapWild_ne_empty s, companyFragShape, condsAux]
  · by_cases hn : n = 0 <;>
      simp [companyFilter, companyEntries, truthyStr, truthyNum, hs, hn,
        wrapWild_ne_empty s, companyFragShape, condsAux]
  · by_cases hn : n = 0
    · by_cases hm : m = 0 <;>
        simp [companyFilter, companyEntries, truthyStr, truthyNum, hs, hn, hm,
          wrapWild_ne_empty s, companyFragShape, condsAux]
    · by_cases hm : m = 0
      · simp [companyFilter, companyEntries, truthyStr, truthyNum, hs, hn, hm,
          wrapWild_ne_empty s, companyFragShape, condsAux]
      · have hgt : ¬((n : Int) > m) := fun hgt =>
          hguard ⟨by simp [truthyNum, hn], by simp [truthyNum, hm], by simpa using hgt⟩
        simp [companyFilter, companyEntries, truthyStr, truthyNum, hs, hn, hm, hgt,
          wrapWild_ne_empty s, companyFragShape, condsAux]

/-- C8 counterexample: at the criteria `{nameLike: "", minEmployees: 5}`
the `nameLike` value is falsy, so `Company.filter` neither wraps nor
binds it — no `%%` pattern parameter exists and no name condition is
built, refuting the claim's universal quantification over every
`nameLike` value. -/
theorem companyFilter_nameLike_counterexample :
    companyFilter ⟨some "", some 5, none⟩
      = (Except.ok { whereClause := "num_employees >= $1",
                     params := [JSVal.vNum 5] },
         ⟨some "", some 5, none⟩)
    ∧ JSVal.vStr (wrapWild "") ∉ [JSVal.vNum 5] :=
  ⟨rfl, by decide⟩

/-- C8 amended: for every criteria map with a truthy (non-empty)
`nameLike` value `s` on which `Company.filter` succeeds, the bound
parameter list starts with the wrapped pattern `%s%` (the wrapping
happened before binding), the unwrapped `s` is never among the bound
parameters, and the clause text is a function of which criteria are
truthy alone — the caller's value is never concatenated into the SQL
text. -/
theorem companyFilter_nameLike_amended (q : CompanyQuery) (s : String)
    (hs : s ≠ "") (hname : q.nameLike = some s) (r : FilterResult)
    (q2 : CompanyQuery) (hok : companyFilter q = (Except.ok r, q2)) :
    r.params.head? = some (JSVal.vStr (wrapWild s))
    ∧ JSVal.vStr s ∉ r.params
    ∧ r.whereClause = String.intercalate " AND "
        (condsAux 0 (companyFragShape true (truthyNum q.minEmployees)
          (truthyNum q.maxEmployees))) := by
  rcases q with ⟨nl, mn, mx⟩
  simp only at hname
  subst hname
  by_cases hguard : truthyNum mn = true ∧ truthyNum mx = true ∧ mn.getD 0 > mx.getD 0
  · rw [companyFilter_minmax_error ⟨some s, mn, mx⟩ hguard.1 hguard.2.1 hguard.2.2] at hok
    simp at hok
  · rw [companyFilter_nameLike_ok s hs mn mx hguard] at hok
    simp only [Prod.mk.injEq, Except.ok.injEq] at hok
    rcases hok with ⟨hr, _⟩
    subst hr
    refine ⟨rfl, ?_, rfl⟩
    have hne : JSVal.vStr s ≠ JSVal.vStr (wrapWild s) := by
      simp [Ne.symm (wrapWild_ne_self s)]
    split_ifs <;> simp [hne]

/-- Witness for the amended C8 at the spec's example `{nameLike: "tech"}`. -/
theorem companyFilter_nameLike_amended_witness :
    (techFilterResult.params.head? = some (JSVal.vStr (wrapWild "tech")))
    ∧ JSVal.vStr "tech" ∉ techFilterResult.params
    ∧ techFilterResult.whereClause
        = String.intercalate " AND "
            (condsAux 0 (companyFragShape true (truthyNum none) (truthyNum none))) :=
  companyFilter_nameLike_amended ⟨some "tech", none, none⟩ "tech" (by decide) rfl
    techFilterResult ⟨some "%tech%", none, none⟩ rfl

/-- C10: the immutable-field rejection in `Job.update` keys on
truthiness, not key presence — when the update map's `id` value and
`companyHandle` value are both falsy (absent, `0`, or `""`), no
`BadRequestError` is raised: the call proceeds into
`sqlForPartialUpdate`, and every key of the map, the falsy immutable
one included, yields an assignment fragment in the generated clause
(the `i`-th fragment quoting the resolved `i`-th key at position
`$(i+1)`). -/
theorem jobUpdateSet_falsy_immutable (data : List (String × JSVal))
    (hid : truthyOpt (lookupJS "id" data) = false)
    (hch : truthyOpt (lookupJS "companyHandle" data) = false) :
    jobUpdateSet data = sqlForPartialUpdate data jobJsToSql
    ∧ (data ≠ [] → jobUpdateSet data = Except.ok
        { setCols := String.intercalate ", " (updateCols jobJsToSql (data.map Prod.fst)),
          values := data.map Prod.snd })
    ∧ ∀ i, i < data.length →
        (updateCols jobJsToSql (data.map Prod.fst)).getD i ""
          = "\"" ++ resolveCol jobJsToSql ((data.getD i ("", JSVal.vStr "")).1)
              ++ "\"=$" ++ toString (i + 1) := by
  have hmain : jobUpdateSet data = sqlForPartialUpdate data jobJsToSql := by
    simp [jobUpdateSet, hid, hch]
  refine ⟨hmain, ?_, ?_⟩
  · intro hne
    rw [hmain]
    have h0 : ¬ (data.map Prod.fst).length = 0 := by
      simpa [List.length_eq_zero] using hne
    simp [sqlForPartialUpdate, hne]
  · intro i hi
    rw [← map_fst_getD data i hi]
    exact updateCols_getD jobJsToSql i (data.map Prod.fst) (by simpa using hi)

/-- Witness for C10 at the maps `{id: 0}` and `{companyHandle: ""}`:
neither triggers the immutable-field error and each key flows into the
assignment clause (with `companyHandle` resolved to `company_handle`). -/
theorem jobUpdateSet_falsy_immutable_witness :
    jobUpdateSet [("id", JSVal.vNum 0)]
      = Except.ok { setCols := "\"id\"=$1", values := [JSVal.vNum 0] }
    ∧ jobUpdateSet [("companyHandle", JSVal.vStr "")]
      = Except.ok { setCols := "\"company_handle\"=$1", values := [JSVal.vStr ""] } := by
  have h1 := jobUpdateSet_falsy_immutable [("id", JSVal.vNum 0)] rfl rfl
  have h2 := jobUpdateSet_falsy_immutable [("companyHandle", JSVal.vStr "")] rfl rfl
  exact ⟨(h1.2.1 (by simp)).trans rfl, (h2.2.1 (by simp)).trans rfl⟩
